import Mathlib

/-!
Verification development for the BlogForge backend (`src/api/index.py`),
a single-endpoint FastAPI proxy over a chat-completion API.

The Python source is shallowly embedded below:
pure string manipulation becomes Lean string functions, the process-wide
environment configuration becomes an explicit `Config` record, and the
single outbound HTTP call is abstracted by a `CallResult` value describing
the outcome the client observed (timeout, raised exception, or a response
with a status code and a body parse outcome).  The request handler
`generate_blog` is then a total function from configuration, parsed
request and call outcome to either an `HttpError` (FastAPI
`HTTPException`) or a success body.
-/

/-- ASCII whitespace recognised by Python `str.strip()`
(space, tab, newline, carriage return, vertical tab, form feed). -/
def pyIsSpace (c : Char) : Bool :=
  c = ' ' || c = '\t' || c = '\n' || c = '\r' || c = '\x0b' || c = '\x0c'

/-- Character-list version of Python `str.strip()`: remove leading and
trailing whitespace. -/
def pyStripChars (l : List Char) : List Char :=
  ((l.dropWhile pyIsSpace).reverse.dropWhile pyIsSpace).reverse

/-- Python `str.strip()` on strings. -/
def pyStrip (s : String) : String :=
  ⟨pyStripChars s.data⟩

/-- Python `str.lower()` (ASCII case folding; the six filler prefixes are
pure ASCII, so this is the relevant fragment). -/
def pyLower (s : String) : String :=
  ⟨s.data.map Char.toLower⟩

/-- Python `s.startswith(p)`. -/
def pyStartswith (s p : String) : Bool :=
  p.data.isPrefixOf s.data

/-- Python slice `s[n:]` (drop the first `n` characters). -/
def pyDrop (s : String) (n : Nat) : String :=
  ⟨s.data.drop n⟩

/-- Process-wide configuration, read once from the environment at startup:
`GROQ_API_KEY = os.environ.get("GROQ_API_KEY")` and
`GROQ_MODEL = os.environ.get("GROQ_MODEL", "llama-3.3-70b-versatile")`. -/
structure Config where
  groq_api_key : Option String
  groq_model_env : Option String
deriving DecidableEq, Repr

/-- The default model identifier in `os.environ.get("GROQ_MODEL", ...)`. -/
def defaultModel : String := "llama-3.3-70b-versatile"

/-- The value `GROQ_MODEL`: the configured model identifier or its default. -/
def GROQ_MODEL (cfg : Config) : String :=
  cfg.groq_model_env.getD defaultModel

/-- The fixed upstream endpoint constant `GROQ_URL`. -/
def GROQ_URL : String := "https://api.groq.com/openai/v1/chat/completions"

/-- Python truthiness of `os.environ.get` results: `None` and the empty
string are falsy, so `if not GROQ_API_KEY` fires exactly when the key is
absent or empty. -/
def envTruthy (o : Option String) : Bool :=
  match o with
  | none => false
  | some s => s ≠ ""

/-- The parsed request body (pydantic model `BlogRequest`). -/
structure BlogRequest where
  topic : String
  tone : String
  length : String
deriving DecidableEq, Repr

/-- Default for the `tone` field of `BlogRequest`. -/
def defaultTone : String := "informative and friendly"

/-- Default for the `length` field of `BlogRequest`. -/
def defaultLength : String := "1000-1500"

/-- Pydantic validation of the request body: `topic` is required,
`tone` and `length` take their declared defaults when omitted.  No other
constraint is imposed (in particular no minimum length on `topic`). -/
def parseBlogRequest (topic tone len : Option String) : Except String BlogRequest :=
  match topic with
  | none => .error "Field required"
  | some t => .ok ⟨t, tone.getD defaultTone, len.getD defaultLength⟩

/-- The fixed ordered list of filler prefixes in `generate_blog`. -/
def prefixes : List String :=
  ["write a blog about", "write blog about", "blog about",
   "write about", "blog on", "create a blog about"]

/-- The `for p in prefixes: ... break` loop of `generate_blog`: at the
first prefix `p` with `topic.lower().startswith(p)`, replace `topic` by
`topic[len(p):].strip()` and stop; otherwise keep scanning. -/
def stripPrefixLoop : List String → String → String
  | [], t => t
  | p :: ps, t =>
      if pyStartswith (pyLower t) p then pyStrip (pyDrop t p.length)
      else stripPrefixLoop ps t

/-- Lines 107-113 of the handler: `topic = req.topic.strip()` followed by
the prefix-stripping loop. -/
def normalizeTopic (raw : String) : String :=
  stripPrefixLoop prefixes (pyStrip raw)

/-- Opening fragment of the f-string in `build_prompt`, up to `{topic}`. -/
def promptPart1 : String := "Write a complete, SEO-optimized blog post about: \""

/-- Fragment of the prompt between `{topic}` and `{tone}`. -/
def promptPart2 : String := "\"\n\nTONE: "

/-- Fragment of the prompt between `{tone}` and `{length}`. -/
def promptPart3 : String := "\nTARGET LENGTH: "

/-- Fixed tail of the prompt template after `{length}`. -/
def promptPart4 : String := " words\n\nFollow this exact structure:\n\n---\nMETA TITLE: [Write an SEO title 50-60 chars with main keyword]\nMETA DESCRIPTION: [Write a compelling meta description 150-160 chars]\n---\n\n# [H1 Main Title - include primary keyword]\n\n[Introduction paragraph - hook the reader, include keyword in first 100 words]\n\n## [H2 - First main section with keyword variation]\n\n[2-3 paragraphs]\n\n## [H2 - Second main section]\n\n[2-3 paragraphs with bullet points if helpful]\n\n## [H2 - Third main section]\n\n[2-3 paragraphs]\n\n## [H2 - Fourth main section or Tips/Best Practices]\n\n[2-3 paragraphs or numbered list]\n\n## Frequently Asked Questions\n\n**Q: [Relevant question 1]**\nA: [Clear answer]\n\n**Q: [Relevant question 2]**\nA: [Clear answer]\n\n**Q: [Relevant question 3]**\nA: [Clear answer]\n\n## Conclusion\n\n[Wrap up with key takeaways and a call to action]\n\nSEO Rules: 1-2% keyword density, use LSI/related terms naturally, short paragraphs, transition words, no keyword stuffing."

/-- The function `build_prompt(topic, tone, length)`: the f-string template with the
three variables substituted. -/
def build_prompt (topic tone len : String) : String :=
  promptPart1 ++ topic ++ promptPart2 ++ tone ++ promptPart3 ++ len ++ promptPart4

/-- One role/content message pair of the upstream payload. -/
structure Message where
  role : String
  content : String
deriving DecidableEq, Repr

/-- The fixed system message of the upstream payload. -/
def systemMessageText : String :=
  "You are a professional SEO content writer with 10+ years of experience creating blogs that rank on Google."

/-- The JSON payload of the outbound chat-completion call
(temperature `0.75` is the exact rational 3/4). -/
structure Payload where
  model : String
  messages : List Message
  max_tokens : Nat
  temperature : Rat
deriving Repr

/-- Lines 117-131: the payload built for a given prompt. -/
def mkPayload (cfg : Config) (prompt : String) : Payload :=
  { model := GROQ_MODEL cfg
    messages := [⟨"system", systemMessageText⟩, ⟨"user", prompt⟩]
    max_tokens := 3000
    temperature := (3 : Rat) / 4 }

/-- The `timeout=60.0` argument of `httpx.AsyncClient` (seconds). -/
def httpClientTimeoutSeconds : Rat := 60

/-- Outcome of extracting `data["choices"][0]["message"]["content"]`:
either the content string, or the description of the `KeyError` /
`IndexError` / `TypeError` the lookup raised. -/
structure JsonBody where
  errorMessage : Option String
  contentResult : Except String String
deriving Repr

/-- What the single outbound `client.post` observed: a timeout, some other
raised exception (network failure, described by its `str`), or an HTTP
response whose body either failed to parse as JSON (`.error` with the
decode error description) or parsed (`.ok` with the fields the handler
reads). -/
inductive CallResult where
  | timeout
  | raisedBefore (excMsg : String)
  | response (statusCode : Nat) (body : Except String JsonBody)
deriving Repr

/-- FastAPI `HTTPException` as raised by the handler. -/
structure HttpError where
  status_code : Nat
  detail : String
deriving DecidableEq, Repr

/-- Python `str(e)` for a starlette/FastAPI `HTTPException`:
`f"\x7bself.status_code\x7d: \x7bself.detail\x7d"`. -/
def strOfHTTPException (e : HttpError) : String :=
  toString e.status_code ++ ": " ++ e.detail

/-- The success body `JSONResponse(content=\x7b"content": ..., "topic": ...\x7d)`. -/
structure SuccessResponse where
  content : String
  topic : String
deriving DecidableEq, Repr

/-- What the `try` block at lines 138-151 evaluates to, before the
`except` clauses run: a success response, or one of the exceptions that
escaped it (`httpx.TimeoutException`, the `HTTPException` raised at line
143, or any other exception with its `str`). -/
inductive TryOutcome where
  | ok (resp : SuccessResponse)
  | timeoutExc
  | httpExc (e : HttpError)
  | otherExc (msg : String)
deriving DecidableEq, Repr

/-- The body of the `try` block: `response.json()` runs first (a parse
failure raises before the status is ever inspected); a non-200 status then
raises `HTTPException(response.status_code, data.get("error", \x7b\x7d).get("message", "Groq API error"))`;
otherwise the first completion content is extracted and returned with the
normalized topic. -/
def tryBlock (topic : String) (call : CallResult) : TryOutcome :=
  match call with
  | .timeout => .timeoutExc
  | .raisedBefore m => .otherExc m
  | .response status bodyRes =>
    match bodyRes with
    | .error m => .otherExc m
    | .ok body =>
      if status ≠ 200 then
        .httpExc ⟨status, body.errorMessage.getD "Groq API error"⟩
      else
        match body.contentResult with
        | .ok c => .ok ⟨c, topic⟩
        | .error m => .otherExc m

/-- The `except` clauses at lines 153-156: `httpx.TimeoutException` maps
to a 504; every other exception — including the `HTTPException` raised
inside the `try` block, which is an `Exception` — is caught by
`except Exception as e` and rewritten to a 500 with `str(e)` as detail. -/
def exceptHandling (t : TryOutcome) : Except HttpError SuccessResponse :=
  match t with
  | .ok r => .ok r
  | .timeoutExc => .error ⟨504, "Request timed out. Please try again."⟩
  | .httpExc e => .error ⟨500, strOfHTTPException e⟩
  | .otherExc m => .error ⟨500, m⟩

/-- The `POST /generate` handler `generate_blog`: reject when the API key
is falsy, otherwise normalize the topic and run the call through the
`try`/`except` structure. -/
def generate_blog (cfg : Config) (req : BlogRequest) (call : CallResult) :
    Except HttpError SuccessResponse :=
  if envTruthy cfg.groq_api_key = false then
    .error ⟨500, "API key not configured on server"⟩
  else
    exceptHandling (tryBlock (normalizeTopic req.topic) call)

/-- The outbound request the handler issues, when it issues one: `none`
when the API-key guard fires before the call, otherwise the payload built
from the normalized topic, tone and length.  `generate_blog` consumes a
single `CallResult`, so at most one outbound call occurs per invocation
and none is retried. -/
def outboundCall (cfg : Config) (req : BlogRequest) : Option Payload :=
  if envTruthy cfg.groq_api_key = false then none
  else some (mkPayload cfg (build_prompt (normalizeTopic req.topic) req.tone req.length))

/-- Number of outbound call attempts a single invocation performs. -/
def outboundAttempts (cfg : Config) (req : BlogRequest) : Nat :=
  match outboundCall cfg req with
  | some _ => 1
  | none => 0

/-- HTTP status of the final response: FastAPI serves a plain return as
200 and an `HTTPException` with its carried status code. -/
def responseStatus (r : Except HttpError SuccessResponse) : Nat :=
  match r with
  | .ok _ => 200
  | .error e => e.status_code

/-- The `GET /health` handler. -/
structure HealthResponse where
  status : String
  model : String
deriving DecidableEq, Repr

/-- The handler `health()`: returns status `"ok"` and the configured model. -/
def health (cfg : Config) : HealthResponse :=
  ⟨"ok", GROQ_MODEL cfg⟩

/-- The claim's description of the stripping result, stated in its own
words: the trimmed topic with the matched prefix (by character count) and
any whitespace following it removed, and nothing else. -/
def removeMatchAndFollowingWs (t p : String) : String :=
  ⟨(t.data.drop p.length).dropWhile pyIsSpace⟩

/-- A list all of whose trailing elements already fail `p` is unchanged by
a further right-trim, and so is any of its suffixes. -/
lemma rdropWhile_eq_self_of_suffix {α : Type} {p : α → Bool} {s m : List α}
    (hs : s <:+ m) (hm : List.rdropWhile p m = m) :
    List.rdropWhile p s = s := by
  rw [List.rdropWhile_eq_self_iff] at hm ⊢
  intro hne
  obtain ⟨r, rfl⟩ := hs
  have hrs : r ++ s ≠ [] := by simp [hne]
  have := hm hrs
  rwa [List.getLast_append' r s hne] at this

/-- Unfolding: `pyStripChars` is a right-trim after a left-trim. -/
lemma pyStripChars_eq_rdropWhile (l : List Char) :
    pyStripChars l = List.rdropWhile pyIsSpace (l.dropWhile pyIsSpace) := rfl

/-- The output of `pyStripChars` carries no trailing whitespace. -/
lemma rdropWhile_pyStripChars (l : List Char) :
    List.rdropWhile pyIsSpace (pyStripChars l) = pyStripChars l := by
  rw [pyStripChars_eq_rdropWhile]
  exact List.rdropWhile_idempotent _ _

/-- On a list with no trailing whitespace, the two-sided strip degenerates
to the left strip. -/
lemma pyStripChars_eq_dropWhile {m : List Char}
    (hm : List.rdropWhile pyIsSpace m = m) :
    pyStripChars m = m.dropWhile pyIsSpace := by
  rw [pyStripChars_eq_rdropWhile]
  exact rdropWhile_eq_self_of_suffix (List.dropWhile_suffix _) hm

/-- Dropping the matched prefix from an already-trimmed topic and then
running Python `.strip()` removes exactly the whitespace that followed the
prefix: the trailing side was already clean. -/
lemma pyStrip_drop_of_strip (input : String) (n : Nat) :
    pyStrip (pyDrop (pyStrip input) n) =
      ⟨((pyStrip input).data.drop n).dropWhile pyIsSpace⟩ := by
  have h1 : List.rdropWhile pyIsSpace (pyStripChars input.data) =
      pyStripChars input.data := rdropWhile_pyStripChars input.data
  have h2 : List.rdropWhile pyIsSpace ((pyStripChars input.data).drop n) =
      (pyStripChars input.data).drop n :=
    rdropWhile_eq_self_of_suffix (List.drop_suffix n _) h1
  show (⟨pyStripChars ((pyStripChars input.data).drop n)⟩ : String) = _
  rw [pyStripChars_eq_dropWhile h2]
  rfl

/-- The `for`/`break` loop returns the strip at the first matching prefix
in list order, and leaves the topic unchanged when nothing matches. -/
lemma stripPrefixLoop_find (ps : List String) (t : String) :
    (∀ p, ps.find? (fun q => pyStartswith (pyLower t) q) = some p →
        stripPrefixLoop ps t = pyStrip (pyDrop t p.length))
    ∧ (ps.find? (fun q => pyStartswith (pyLower t) q) = none →
        stripPrefixLoop ps t = t) := by
  induction ps with
  | nil =>
      exact ⟨fun p h => by simp [List.find?] at h, fun _ => rfl⟩
  | cons a ps ih =>
      by_cases h : pyStartswith (pyLower t) a = true
      · refine ⟨fun p hp => ?_, fun hp => ?_⟩
        · rw [List.find?_cons_of_pos _ h] at hp
          cases hp
          simp [stripPrefixLoop, h]
        · rw [List.find?_cons_of_pos _ h] at hp
          cases hp
      · refine ⟨fun p hp => ?_, fun hp => ?_⟩
        · rw [List.find?_cons_of_neg _ h] at hp
          have := ih.1 p hp
          simp [stripPrefixLoop, h, this]
        · rw [List.find?_cons_of_neg _ h] at hp
          simp [stripPrefixLoop, h, ih.2 hp]

/-- C2: after trimming, a topic that begins case-insensitively with one of
the six filler prefixes comes back with exactly the first matching prefix
(in list order) and any following whitespace removed, with no further
strip attempted; a topic matching no prefix comes back trimmed but
otherwise unchanged. -/
theorem topicNormalization_firstMatch (input : String) :
    (∀ p, prefixes.find? (fun q => pyStartswith (pyLower (pyStrip input)) q) = some p →
        normalizeTopic input = removeMatchAndFollowingWs (pyStrip input) p)
    ∧ (prefixes.find? (fun q => pyStartswith (pyLower (pyStrip input)) q) = none →
        normalizeTopic input = pyStrip input) := by
  constructor
  · intro p hp
    have := (stripPrefixLoop_find prefixes (pyStrip input)).1 p hp
    rw [normalizeTopic, this, pyStrip_drop_of_strip]
    rfl
  · intro hp
    exact (stripPrefixLoop_find prefixes (pyStrip input)).2 hp

/-- Witness for C2 at the spec's own concrete scenario. -/
theorem topicNormalization_firstMatch_witness :
    (prefixes.find?
        (fun q => pyStartswith (pyLower (pyStrip "Write a blog about remote work productivity")) q)
      = some "write a blog about")
    ∧ normalizeTopic "Write a blog about remote work productivity" =
        removeMatchAndFollowingWs (pyStrip "Write a blog about remote work productivity")
          "write a blog about"
    ∧ normalizeTopic "Write a blog about remote work productivity" = "remote work productivity" :=
  ⟨by decide,
   (topicNormalization_firstMatch "Write a blog about remote work productivity").1
     "write a blog about" (by decide),
   by decide⟩

/-- C1: the code does NOT propagate a non-200 upstream status.  The
`HTTPException(429, ...)` raised inside the `try` block is itself an
`Exception`, so `except Exception as e` catches it and re-raises a 500
whose detail is `str(e)` — here `"429: Rate limit exceeded"` — instead of
a 429 with detail `"Rate limit exceeded"`. -/
theorem upstreamStatus_swallowed_by_catchAll :
    generate_blog ⟨some "key", none⟩ ⟨"remote work", defaultTone, defaultLength⟩
        (.response 429 (.ok ⟨some "Rate limit exceeded", .error "KeyError"⟩))
      = .error ⟨500, "429: Rate limit exceeded"⟩ := by
  rfl

/-- C3: with the API secret absent, every request fails with 500 and
detail "API key not configured on server", and no outbound call is made. -/
theorem missingApiKey_rejects_without_call (cfg : Config) (req : BlogRequest)
    (call : CallResult) (h : cfg.groq_api_key = none) :
    generate_blog cfg req call = .error ⟨500, "API key not configured on server"⟩
    ∧ outboundCall cfg req = none
    ∧ outboundAttempts cfg req = 0 := by
  have hf : envTruthy cfg.groq_api_key = false := by rw [h]; rfl
  refine ⟨?_, ?_, ?_⟩
  · simp [generate_blog, hf]
  · simp [outboundCall, hf]
  · simp [outboundAttempts, outboundCall, hf]

/-- Witness for C3 at a concrete configuration and request. -/
theorem missingApiKey_rejects_without_call_witness :
    (⟨none, none⟩ : Config).groq_api_key = none
    ∧ (generate_blog ⟨none, none⟩ ⟨"cats", defaultTone, defaultLength⟩ .timeout
          = .error ⟨500, "API key not configured on server"⟩
       ∧ outboundCall ⟨none, none⟩ ⟨"cats", defaultTone, defaultLength⟩ = none
       ∧ outboundAttempts ⟨none, none⟩ ⟨"cats", defaultTone, defaultLength⟩ = 0) :=
  ⟨rfl, missingApiKey_rejects_without_call ⟨none, none⟩ ⟨"cats", defaultTone, defaultLength⟩
    .timeout rfl⟩

/-- C4: on an upstream 200 with a well-formed completion body, the handler
answers 200 with the first completion content verbatim and the
post-normalization topic. -/
theorem success_returns_content_and_topic (cfg : Config) (req : BlogRequest)
    (errMsg : Option String) (content : String)
    (h : envTruthy cfg.groq_api_key = true) :
    generate_blog cfg req (.response 200 (.ok ⟨errMsg, .ok content⟩))
      = .ok ⟨content, normalizeTopic req.topic⟩
    ∧ responseStatus (generate_blog cfg req (.response 200 (.ok ⟨errMsg, .ok content⟩))) = 200 := by
  have hg : generate_blog cfg req (.response 200 (.ok ⟨errMsg, .ok content⟩))
      = .ok ⟨content, normalizeTopic req.topic⟩ := by
    simp [generate_blog, h, tryBlock, exceptHandling]
  exact ⟨hg, by rw [hg]; rfl⟩

/-- Witness for C4 at a concrete configuration, request and body. -/
theorem success_returns_content_and_topic_witness :
    envTruthy (⟨some "key", none⟩ : Config).groq_api_key = true
    ∧ (generate_blog ⟨some "key", none⟩ ⟨"Blog about cats", defaultTone, defaultLength⟩
          (.response 200 (.ok ⟨none, .ok "Generated text"⟩))
        = .ok ⟨"Generated text", normalizeTopic "Blog about cats"⟩
       ∧ responseStatus (generate_blog ⟨some "key", none⟩
            ⟨"Blog about cats", defaultTone, defaultLength⟩
            (.response 200 (.ok ⟨none, .ok "Generated text"⟩))) = 200) :=
  ⟨rfl, success_returns_content_and_topic ⟨some "key", none⟩
    ⟨"Blog about cats", defaultTone, defaultLength⟩ none "Generated text" rfl⟩

/-- C5: on a timeout of the single outbound call — the client is
configured with a fixed 60-second timeout — the handler answers 504 with
the retry-suggesting message, and only one call attempt was made (no
automatic retry). -/
theorem timeout_maps_to_504 (cfg : Config) (req : BlogRequest)
    (h : envTruthy cfg.groq_api_key = true) :
    generate_blog cfg req .timeout = .error ⟨504, "Request timed out. Please try again."⟩
    ∧ responseStatus (generate_blog cfg req .timeout) = 504
    ∧ outboundAttempts cfg req = 1
    ∧ httpClientTimeoutSeconds = 60 := by
  have hg : generate_blog cfg req .timeout
      = .error ⟨504, "Request timed out. Please try again."⟩ := by
    simp [generate_blog, h, tryBlock, exceptHandling]
  refine ⟨hg, by rw [hg]; rfl, ?_, rfl⟩
  simp [outboundAttempts, outboundCall, h]

/-- Witness for C5 at a concrete configuration and request. -/
theorem timeout_maps_to_504_witness :
    envTruthy (⟨some "key", none⟩ : Config).groq_api_key = true
    ∧ (generate_blog ⟨some "key", none⟩ ⟨"cats", defaultTone, defaultLength⟩ .timeout
        = .error ⟨504, "Request timed out. Please try again."⟩
       ∧ responseStatus (generate_blog ⟨some "key", none⟩
            ⟨"cats", defaultTone, defaultLength⟩ .timeout) = 504
       ∧ outboundAttempts ⟨some "key", none⟩ ⟨"cats", defaultTone, defaultLength⟩ = 1
       ∧ httpClientTimeoutSeconds = 60) :=
  ⟨rfl, timeout_maps_to_504 ⟨some "key", none⟩ ⟨"cats", defaultTone, defaultLength⟩ rfl⟩

/-- C6: a response body that fails to parse as JSON yields a 500 carrying
the parse error's description, for EVERY upstream status code:
`response.json()` runs — and raises — before the status is inspected. -/
theorem unparseableBody_maps_to_500 (cfg : Config) (req : BlogRequest)
    (status : Nat) (m : String) (h : envTruthy cfg.groq_api_key = true) :
    generate_blog cfg req (.response status (.error m)) = .error ⟨500, m⟩ := by
  simp [generate_blog, h, tryBlock, exceptHandling]

/-- Witness for C6, at a non-200 status to exhibit that the status code is
irrelevant. -/
theorem unparseableBody_maps_to_500_witness :
    envTruthy (⟨some "key", none⟩ : Config).groq_api_key = true
    ∧ generate_blog ⟨some "key", none⟩ ⟨"cats", defaultTone, defaultLength⟩
        (.response 502 (.error "Expecting value: line 1 column 1 (char 0)"))
      = .error ⟨500, "Expecting value: line 1 column 1 (char 0)"⟩ :=
  ⟨rfl, unparseableBody_maps_to_500 ⟨some "key", none⟩ ⟨"cats", defaultTone, defaultLength⟩
    502 "Expecting value: line 1 column 1 (char 0)" rfl⟩

/-- C7: a topic that is empty or whitespace-only passes validation (only
the field's presence is required), the prompt is built with the empty
topic string, and the outbound call is issued exactly as for any other
topic. -/
theorem emptyTopic_not_rejected (cfg : Config) (rawTopic : String)
    (tone len : Option String)
    (hkey : envTruthy cfg.groq_api_key = true) (hempty : pyStrip rawTopic = "") :
    parseBlogRequest (some rawTopic) tone len
        = .ok ⟨rawTopic, tone.getD defaultTone, len.getD defaultLength⟩
    ∧ normalizeTopic rawTopic = ""
    ∧ outboundCall cfg ⟨rawTopic, tone.getD defaultTone, len.getD defaultLength⟩
        = some (mkPayload cfg
            (build_prompt "" (tone.getD defaultTone) (len.getD defaultLength))) := by
  have hnorm : normalizeTopic rawTopic = "" := by
    rw [normalizeTopic, hempty]
    rfl
  refine ⟨rfl, hnorm, ?_⟩
  simp [outboundCall, hkey, hnorm]

/-- Witness for C7 at a whitespace-only topic. -/
theorem emptyTopic_not_rejected_witness :
    envTruthy (⟨some "key", none⟩ : Config).groq_api_key = true
    ∧ pyStrip "   " = ""
    ∧ (parseBlogRequest (some "   ") none none
          = .ok ⟨"   ", defaultTone, defaultLength⟩
       ∧ normalizeTopic "   " = ""
       ∧ outboundCall ⟨some "key", none⟩ ⟨"   ", defaultTone, defaultLength⟩
          = some (mkPayload ⟨some "key", none⟩ (build_prompt "" defaultTone defaultLength))) :=
  ⟨rfl, by decide, emptyTopic_not_rejected ⟨some "key", none⟩ "   " none none rfl (by decide)⟩

/-- C8: `GET /health` answers status "ok" and the configured-or-default
model identifier, independently of whether the API secret is present. -/
theorem health_always_ok (cfg : Config) :
    health cfg = ⟨"ok", GROQ_MODEL cfg⟩
    ∧ (∀ key key' modelEnv, health ⟨key, modelEnv⟩ = health ⟨key', modelEnv⟩)
    ∧ (∀ key, health ⟨key, none⟩ = ⟨"ok", defaultModel⟩)
    ∧ (∀ key m, health ⟨key, some m⟩ = ⟨"ok", m⟩) :=
  ⟨rfl, fun _ _ _ => rfl, fun _ => rfl, fun _ _ => rfl⟩

/-- C9: every request that reaches the outbound call sends exactly two
ordered messages — the fixed system message then the user prompt — with
temperature exactly 0.75, max_tokens exactly 3000, and the configured
model identifier. -/
theorem payload_shape (cfg : Config) (req : BlogRequest)
    (h : envTruthy cfg.groq_api_key = true) :
    outboundCall cfg req
      = some (mkPayload cfg (build_prompt (normalizeTopic req.topic) req.tone req.length))
    ∧ ∀ p, outboundCall cfg req = some p →
        p.messages = [⟨"system", systemMessageText⟩,
                      ⟨"user", build_prompt (normalizeTopic req.topic) req.tone req.length⟩]
        ∧ p.messages.length = 2
        ∧ p.temperature = (0.75 : Rat)
        ∧ p.max_tokens = 3000
        ∧ p.model = GROQ_MODEL cfg := by
  have hc : outboundCall cfg req
      = some (mkPayload cfg (build_prompt (normalizeTopic req.topic) req.tone req.length)) := by
    simp [outboundCall, h]
  refine ⟨hc, fun p hp => ?_⟩
  rw [hc] at hp
  cases hp
  refine ⟨rfl, rfl, ?_, rfl, rfl⟩
  norm_num [mkPayload]

/-- Witness for C9 at a concrete configuration and request. -/
theorem payload_shape_witness :
    envTruthy (⟨some "key", some "mixtral"⟩ : Config).groq_api_key = true
    ∧ (outboundCall ⟨some "key", some "mixtral"⟩ ⟨"cats", defaultTone, defaultLength⟩
        = some (mkPayload ⟨some "key", some "mixtral"⟩
            (build_prompt (normalizeTopic "cats") defaultTone defaultLength))
       ∧ ∀ p,
          outboundCall ⟨some "key", some "mixtral"⟩ ⟨"cats", defaultTone, defaultLength⟩
            = some p →
          p.messages = [⟨"system", systemMessageText⟩,
                      ⟨"user", build_prompt (normalizeTopic "cats") defaultTone defaultLength⟩]
          ∧ p.messages.length = 2
          ∧ p.temperature = (0.75 : Rat)
          ∧ p.max_tokens = 3000
          ∧ p.model = GROQ_MODEL ⟨some "key", some "mixtral"⟩) :=
  ⟨rfl, payload_shape ⟨some "key", some "mixtral"⟩ ⟨"cats", defaultTone, defaultLength⟩ rfl⟩

/-- C10: an omitted tone defaults to "informative and friendly", an
omitted length to "1000-1500", and those exact values are the ones
substituted into the prompt template. -/
theorem omitted_fields_take_defaults (cfg : Config) (t : String)
    (h : envTruthy cfg.groq_api_key = true) :
    parseBlogRequest (some t) none none
        = .ok ⟨t, "informative and friendly", "1000-1500"⟩
    ∧ ∀ req, parseBlogRequest (some t) none none = .ok req →
        outboundCall cfg req
          = some (mkPayload cfg
              (promptPart1 ++ normalizeTopic t ++ promptPart2 ++
               "informative and friendly" ++ promptPart3 ++ "1000-1500" ++ promptPart4)) := by
  refine ⟨rfl, fun req hreq => ?_⟩
  cases hreq
  simp [outboundCall, h, build_prompt, defaultTone, defaultLength]

/-- Witness for C10 at a concrete configuration and topic. -/
theorem omitted_fields_take_defaults_witness :
    envTruthy (⟨some "key", none⟩ : Config).groq_api_key = true
    ∧ (parseBlogRequest (some "cats") none none
          = .ok ⟨"cats", "informative and friendly", "1000-1500"⟩
       ∧ ∀ req, parseBlogRequest (some "cats") none none = .ok req →
          outboundCall ⟨some "key", none⟩ req
            = some (mkPayload ⟨some "key", none⟩
                (promptPart1 ++ normalizeTopic "cats" ++ promptPart2 ++
                 "informative and friendly" ++ promptPart3 ++ "1000-1500" ++ promptPart4))) :=
  ⟨rfl, omitted_fields_take_defaults ⟨some "key", none⟩ "cats" rfl⟩
